import Mathlib

/-
  Formal model of the GreenBits prototype (app.py).

  The file embeds the pure core of the program — the health-score engine
  `compute_health_score`, the locality matcher
  `get_mock_localities_for_location`, the trend synthesizer
  `generate_mock_aqi_trend`, the response shaping of `geocode_address` and
  `fetch_aqi`, and the `/api/report` orchestrator `api_report` — and proves
  the behavioural properties stated about them.

  Modelling conventions:
  * Python floats are modelled as rationals (exact arithmetic); Python's
    built-in `round` is modelled as decimal round-half-to-even.
  * The outcome of each outbound HTTP call is an explicit input (an
    environment field), so the handler becomes a pure function of the
    request plus the environment.
  * Python's `datetime.utcnow()` date is modelled as an abstract day number
    (an integer), and `math.sin` as an abstract function `sinF : ℕ → ℚ`
    supplied by the environment (its seven relevant arguments are the loop
    indices 0..6).
  * A Python dict in insertion order is modelled as an association list.
-/

/-- Round-half-to-even of a rational to an integer: the rounding mode of
Python's built-in `round` (applied here to exact rational values). -/
def roundHalfEven (q : ℚ) : ℤ :=
  if q - ⌊q⌋ < 1 / 2 then ⌊q⌋
  else if 1 / 2 < q - ⌊q⌋ then ⌊q⌋ + 1
  else if ⌊q⌋ % 2 = 0 then ⌊q⌋ else ⌊q⌋ + 1

/-- Python `round(q, p)` for `p` decimal places. -/
def pyRound (p : ℕ) (q : ℚ) : ℚ := (roundHalfEven (q * 10 ^ p) : ℚ) / 10 ^ p

lemma roundHalfEven_ge (q : ℚ) (a : ℤ) (h : (a : ℚ) ≤ q) : a ≤ roundHalfEven q := by
  have hfl : a ≤ ⌊q⌋ := Int.le_floor.mpr h
  unfold roundHalfEven
  split_ifs <;> omega

lemma roundHalfEven_le (q : ℚ) (b : ℤ) (h : q ≤ (b : ℚ)) : roundHalfEven q ≤ b := by
  have hfl : ⌊q⌋ ≤ b := by
    have h1 : ⌊q⌋ ≤ ⌊(b : ℚ)⌋ := Int.floor_le_floor h
    simpa using h1
  have hfq : (⌊q⌋ : ℚ) ≤ q := Int.floor_le q
  unfold roundHalfEven
  split_ifs with h1 h2 h3
  · exact hfl
  · have hlt : (⌊q⌋ : ℚ) < (b : ℚ) := by linarith
    have : ⌊q⌋ < b := by exact_mod_cast hlt
    omega
  · exact hfl
  · have hhalf : 1 / 2 ≤ q - ⌊q⌋ := not_lt.mp h1
    have hlt : (⌊q⌋ : ℚ) < (b : ℚ) := by linarith
    have : ⌊q⌋ < b := by exact_mod_cast hlt
    omega

lemma pyRound_nonneg (p : ℕ) (q : ℚ) (h : 0 ≤ q) : 0 ≤ pyRound p q := by
  unfold pyRound
  have h1 : (0 : ℤ) ≤ roundHalfEven (q * 10 ^ p) := by
    refine roundHalfEven_ge _ 0 ?_
    have : (0 : ℚ) ≤ q * 10 ^ p := by positivity
    simpa using this
  have h2 : (0 : ℚ) ≤ (roundHalfEven (q * 10 ^ p) : ℚ) := by exact_mod_cast h1
  positivity

lemma pyRound_le (p : ℕ) (q : ℚ) (b : ℤ) (h : q ≤ (b : ℚ)) : pyRound p q ≤ (b : ℚ) := by
  unfold pyRound
  have h10 : (0 : ℚ) < 10 ^ p := by positivity
  have h1 : roundHalfEven (q * 10 ^ p) ≤ b * 10 ^ p := by
    refine roundHalfEven_le _ _ ?_
    push_cast
    exact mul_le_mul_of_nonneg_right h (le_of_lt h10)
  rw [div_le_iff₀ h10]
  calc (roundHalfEven (q * 10 ^ p) : ℚ) ≤ ((b * 10 ^ p : ℤ) : ℚ) := by exact_mod_cast h1
    _ = (b : ℚ) * 10 ^ p := by push_cast; ring

/-- Spec-side clamp of section 4.4 of the design document:
`clamp(q, lo, hi)`. -/
def clamp (lo hi q : ℚ) : ℚ := max lo (min hi q)

/-- The per-factor breakdown returned by the score engine
(`compute_health_score`, app.py:109-111). -/
structure Breakdown where
  aqi_impact : ℚ
  noise_impact : ℚ
  complaints_impact : ℚ
deriving DecidableEq, Repr

/-- Embedding of `compute_health_score` (app.py:82-111).  Absent values are
`none`; `complaints_count` is an integer as in the mock data set. -/
def compute_health_score (aqi_pm25 : Option ℚ) (noise_db : Option ℚ)
    (complaints_count : ℤ) : ℚ × Breakdown :=
  -- guard: `if aqi_pm25 is None: aqi_pm25 = 35.0`
  let pm := aqi_pm25.getD 35
  -- `aqi_impact = min(max(aqi_pm25, 0) / 150.0 * 60.0, 60.0)`
  let aqi_impact := min (max pm 0 / 150 * 60) 60
  -- `noise_impact = 0.0` unless `noise_db is not None`
  let noise_impact : ℚ :=
    match noise_db with
    | none => 0
    | some nd => min (max (nd - 40) 0 / 60 * 20) 20
  -- `complaints_impact = min(complaints_count * 2.0, 20.0)`
  let complaints_impact := min ((complaints_count : ℚ) * 2) 20
  let total_impact := aqi_impact + noise_impact + complaints_impact
  let raw_score := max 0 (100 - total_impact)
  let score := max 0 (min 100 raw_score)
  (pyRound 1 score,
   { aqi_impact := pyRound 2 aqi_impact,
     noise_impact := pyRound 2 noise_impact,
     complaints_impact := pyRound 2 complaints_impact })

lemma clamp_eq_min (hi x : ℚ) (hx : 0 ≤ x) (hhi : 0 ≤ hi) :
    clamp 0 hi x = min x hi := by
  unfold clamp
  rw [max_eq_right (le_min hhi hx), min_comm]

lemma double_clamp (x : ℚ) : max 0 (min 100 (max 0 x)) = clamp 0 100 x := by
  unfold clamp
  simp only [max_def, min_def]
  split_ifs <;> linarith

/-- One-step unfolding of `compute_health_score` (the `let` chain inlined). -/
lemma compute_health_score_eq (pm nd : Option ℚ) (c : ℤ) :
    compute_health_score pm nd c =
      (pyRound 1 (max 0 (min 100 (max 0 (100 -
          (min (max (pm.getD 35) 0 / 150 * 60) 60 +
           (match nd with
            | none => (0 : ℚ)
            | some x => min (max (x - 40) 0 / 60 * 20) 20) +
           min ((c : ℚ) * 2) 20))))),
       { aqi_impact := pyRound 2 (min (max (pm.getD 35) 0 / 150 * 60) 60),
         noise_impact := pyRound 2 (match nd with
            | none => (0 : ℚ)
            | some x => min (max (x - 40) 0 / 60 * 20) 20),
         complaints_impact := pyRound 2 (min ((c : ℚ) * 2) 20) }) := rfl

lemma pyRound_le_twenty (p : ℕ) (q : ℚ) (h : q ≤ 20) : pyRound p q ≤ 20 := by
  have h1 := pyRound_le p q 20 (by exact_mod_cast h)
  exact_mod_cast h1

lemma pyRound_le_sixty (p : ℕ) (q : ℚ) (h : q ≤ 60) : pyRound p q ≤ 60 := by
  have h1 := pyRound_le p q 60 (by exact_mod_cast h)
  exact_mod_cast h1

lemma pyRound_le_hundred (p : ℕ) (q : ℚ) (h : q ≤ 100) : pyRound p q ≤ 100 := by
  have h1 := pyRound_le p q 100 (by exact_mod_cast h)
  exact_mod_cast h1

lemma aqi_impact_bounds (pm nd : Option ℚ) (c : ℤ) :
    0 ≤ (compute_health_score pm nd c).2.aqi_impact ∧
    (compute_health_score pm nd c).2.aqi_impact ≤ 60 := by
  rw [compute_health_score_eq]
  exact ⟨pyRound_nonneg _ _ (le_min
      (mul_nonneg (div_nonneg (le_max_right _ _) (by norm_num)) (by norm_num)) (by norm_num)),
    pyRound_le_sixty _ _ (min_le_right _ _)⟩

lemma noise_impact_bounds (pm nd : Option ℚ) (c : ℤ) :
    0 ≤ (compute_health_score pm nd c).2.noise_impact ∧
    (compute_health_score pm nd c).2.noise_impact ≤ 20 := by
  cases nd with
  | none =>
    rw [compute_health_score_eq]
    exact ⟨pyRound_nonneg _ _ (by norm_num), pyRound_le_twenty _ _ (by norm_num)⟩
  | some x =>
    rw [compute_health_score_eq]
    exact ⟨pyRound_nonneg _ _ (le_min
        (mul_nonneg (div_nonneg (le_max_right _ _) (by norm_num)) (by norm_num)) (by norm_num)),
      pyRound_le_twenty _ _ (min_le_right _ _)⟩

lemma complaints_impact_le (pm nd : Option ℚ) (c : ℤ) :
    (compute_health_score pm nd c).2.complaints_impact ≤ 20 := by
  rw [compute_health_score_eq]
  exact pyRound_le_twenty _ _ (min_le_right _ _)

lemma complaints_impact_nonneg (pm nd : Option ℚ) (c : ℤ) (hc : 0 ≤ c) :
    0 ≤ (compute_health_score pm nd c).2.complaints_impact := by
  rw [compute_health_score_eq]
  have hcq : (0 : ℚ) ≤ (c : ℚ) := by exact_mod_cast hc
  exact pyRound_nonneg _ _ (le_min (mul_nonneg hcq (by norm_num)) (by norm_num))

lemma score_bounds (pm nd : Option ℚ) (c : ℤ) :
    0 ≤ (compute_health_score pm nd c).1 ∧ (compute_health_score pm nd c).1 ≤ 100 := by
  rw [compute_health_score_eq]
  exact ⟨pyRound_nonneg _ _ (le_max_left _ _),
    pyRound_le_hundred _ _ (max_le (by norm_num) (min_le_left _ _))⟩

lemma score_eval_1 : compute_health_score none none 0 = (86, ⟨14, 0, 0⟩) := by
  norm_num [compute_health_score, pyRound, roundHalfEven, max_def, min_def,
    Prod.ext_iff, Breakdown.mk.injEq]

lemma score_eval_2 : compute_health_score (some 150) (some 100) 10 = (0, ⟨60, 20, 20⟩) := by
  norm_num [compute_health_score, pyRound, roundHalfEven, max_def, min_def,
    Prod.ext_iff, Breakdown.mk.injEq]

lemma score_eval_3 : compute_health_score (some 75) (some 70) 2 = (56, ⟨30, 10, 4⟩) := by
  norm_num [compute_health_score, pyRound, roundHalfEven, max_def, min_def,
    Prod.ext_iff, Breakdown.mk.injEq]

/-- Claim C1: `compute_health_score` implements exactly the section-4.4
algorithm — pm25 defaults to 35.0 when absent, aqiImpact is
clamp(max(pm25,0)/150*60, 0, 60), noiseImpact is 0 when noiseDb is absent
and otherwise clamp(max(noiseDb-40,0)/60*20, 0, 20), complaintsImpact is
clamp(complaintsCount*2, 0, 20), and the score is
clamp(100-(aqiImpact+noiseImpact+complaintsImpact), 0, 100) rounded to one
decimal computed from the unrounded impacts, each breakdown component being
rounded to two decimals after clamping — and the section-8 vectors hold:
(None, None, 0) gives aqiImpact 14.0 and score 86.0, (150, 100, 10) gives
all three caps and score 0.0.  The stated equality holds on the documented
domain of the operation (complaintsCount is a nonnegative integer). -/
theorem score_engine_spec_algorithm (aqi_pm25 noise_db : Option ℚ) (c : ℤ) (hc : 0 ≤ c) :
    compute_health_score aqi_pm25 noise_db c =
      (pyRound 1 (clamp 0 100 (100 -
          (clamp 0 60 (max (aqi_pm25.getD 35) 0 / 150 * 60) +
           (match noise_db with
            | none => (0 : ℚ)
            | some nd => clamp 0 20 (max (nd - 40) 0 / 60 * 20)) +
           clamp 0 20 ((c : ℚ) * 2)))),
       { aqi_impact := pyRound 2 (clamp 0 60 (max (aqi_pm25.getD 35) 0 / 150 * 60)),
         noise_impact := pyRound 2 (match noise_db with
            | none => (0 : ℚ)
            | some nd => clamp 0 20 (max (nd - 40) 0 / 60 * 20)),
         complaints_impact := pyRound 2 (clamp 0 20 ((c : ℚ) * 2)) }) ∧
    compute_health_score none none 0 = (86, ⟨14, 0, 0⟩) ∧
    compute_health_score (some 150) (some 100) 10 = (0, ⟨60, 20, 20⟩) := by
  refine ⟨?_, score_eval_1, score_eval_2⟩
  have hA : clamp 0 60 (max (aqi_pm25.getD 35) 0 / 150 * 60) =
      min (max (aqi_pm25.getD 35) 0 / 150 * 60) 60 :=
    clamp_eq_min _ _ (mul_nonneg (div_nonneg (le_max_right _ _) (by norm_num)) (by norm_num))
      (by norm_num)
  have hN : (match noise_db with
        | none => (0 : ℚ)
        | some nd => clamp 0 20 (max (nd - 40) 0 / 60 * 20)) =
      (match noise_db with
        | none => (0 : ℚ)
        | some nd => min (max (nd - 40) 0 / 60 * 20) 20) := by
    cases noise_db with
    | none => rfl
    | some nd =>
      exact clamp_eq_min _ _
        (mul_nonneg (div_nonneg (le_max_right _ _) (by norm_num)) (by norm_num)) (by norm_num)
  have hC : clamp 0 20 ((c : ℚ) * 2) = min ((c : ℚ) * 2) 20 :=
    clamp_eq_min _ _ (mul_nonneg (by exact_mod_cast hc) (by norm_num)) (by norm_num)
  rw [compute_health_score_eq, hA, hN, hC, ← double_clamp]

/-- Claim C2: for pm25 in [0, 10000] or absent, noiseDb in [0, 10000] or
absent, and any nonnegative integer complaintsCount, the score lies in
[0, 100] and each breakdown component lies in its documented range
(aqi_impact in [0, 60], noise_impact in [0, 20], complaints_impact in
[0, 20]). -/
theorem score_and_breakdown_documented_ranges (aqi_pm25 noise_db : Option ℚ) (c : ℤ)
    (_hpm : aqi_pm25 = none ∨ ∃ x, aqi_pm25 = some x ∧ 0 ≤ x ∧ x ≤ 10000)
    (_hnd : noise_db = none ∨ ∃ x, noise_db = some x ∧ 0 ≤ x ∧ x ≤ 10000)
    (hc : 0 ≤ c) :
    (0 ≤ (compute_health_score aqi_pm25 noise_db c).1 ∧
      (compute_health_score aqi_pm25 noise_db c).1 ≤ 100) ∧
    (0 ≤ (compute_health_score aqi_pm25 noise_db c).2.aqi_impact ∧
      (compute_health_score aqi_pm25 noise_db c).2.aqi_impact ≤ 60) ∧
    (0 ≤ (compute_health_score aqi_pm25 noise_db c).2.noise_impact ∧
      (compute_health_score aqi_pm25 noise_db c).2.noise_impact ≤ 20) ∧
    (0 ≤ (compute_health_score aqi_pm25 noise_db c).2.complaints_impact ∧
      (compute_health_score aqi_pm25 noise_db c).2.complaints_impact ≤ 20) :=
  ⟨score_bounds _ _ _, aqi_impact_bounds _ _ _, noise_impact_bounds _ _ _,
    complaints_impact_nonneg _ _ _ hc, complaints_impact_le _ _ _⟩

/-- Witness for C2 at pm25 = 50, noiseDb = 50, complaintsCount = 3. -/
theorem score_and_breakdown_documented_ranges_witness :
    (0 ≤ (compute_health_score (some 50) (some 50) 3).1 ∧
      (compute_health_score (some 50) (some 50) 3).1 ≤ 100) ∧
    (0 ≤ (compute_health_score (some 50) (some 50) 3).2.aqi_impact ∧
      (compute_health_score (some 50) (some 50) 3).2.aqi_impact ≤ 60) ∧
    (0 ≤ (compute_health_score (some 50) (some 50) 3).2.noise_impact ∧
      (compute_health_score (some 50) (some 50) 3).2.noise_impact ≤ 20) ∧
    (0 ≤ (compute_health_score (some 50) (some 50) 3).2.complaints_impact ∧
      (compute_health_score (some 50) (some 50) 3).2.complaints_impact ≤ 20) :=
  score_and_breakdown_documented_ranges (some 50) (some 50) 3
    (Or.inr ⟨50, rfl, by norm_num, by norm_num⟩)
    (Or.inr ⟨50, rfl, by norm_num, by norm_num⟩) (by norm_num)

/-- Witness for C1 at the first section-8 vector (complaint count 0). -/
theorem score_engine_spec_algorithm_witness :
    compute_health_score none none 0 = (86, ⟨14, 0, 0⟩) :=
  (score_engine_spec_algorithm none none 0 (by norm_num)).2.1

/-- Counterexample to C6 as stated: at complaintsCount = -1 (the claim
covers every integer, with no precondition) the returned complaints_impact
is -2.0, which is outside the claimed range [0, 20]: the code caps the
complaints impact above at 20 but never clamps it below at 0. -/
theorem complaints_impact_counterexample :
    (compute_health_score none none (-1)).2.complaints_impact = -2 ∧
    ¬ (0 ≤ (compute_health_score none none (-1)).2.complaints_impact) := by
  norm_num [compute_health_score, pyRound, roundHalfEven, max_def, min_def]

/-- Claim C6 as amended: for every pm2.5 and noiseDb input and every
NONNEGATIVE integer complaintsCount, each breakdown component is within its
stated range (aqi_impact in [0, 60], noise_impact in [0, 20],
complaints_impact in [0, 20]); for a negative complaintsCount the
complaints component can be negative, so the nonnegativity precondition is
required. -/
theorem breakdown_clamped_amended (aqi_pm25 noise_db : Option ℚ) (c : ℤ) (hc : 0 ≤ c) :
    (0 ≤ (compute_health_score aqi_pm25 noise_db c).2.aqi_impact ∧
      (compute_health_score aqi_pm25 noise_db c).2.aqi_impact ≤ 60) ∧
    (0 ≤ (compute_health_score aqi_pm25 noise_db c).2.noise_impact ∧
      (compute_health_score aqi_pm25 noise_db c).2.noise_impact ≤ 20) ∧
    (0 ≤ (compute_health_score aqi_pm25 noise_db c).2.complaints_impact ∧
      (compute_health_score aqi_pm25 noise_db c).2.complaints_impact ≤ 20) :=
  ⟨aqi_impact_bounds _ _ _, noise_impact_bounds _ _ _,
    complaints_impact_nonneg _ _ _ hc, complaints_impact_le _ _ _⟩

/-- Witness for the amended C6 at pm25 = -5 (out of documented range),
noiseDb = 200, complaintsCount = 5. -/
theorem breakdown_clamped_amended_witness :
    (0 ≤ (compute_health_score (some (-5)) (some 200) 5).2.aqi_impact ∧
      (compute_health_score (some (-5)) (some 200) 5).2.aqi_impact ≤ 60) ∧
    (0 ≤ (compute_health_score (some (-5)) (some 200) 5).2.noise_impact ∧
      (compute_health_score (some (-5)) (some 200) 5).2.noise_impact ≤ 20) ∧
    (0 ≤ (compute_health_score (some (-5)) (some 200) 5).2.complaints_impact ∧
      (compute_health_score (some (-5)) (some 200) 5).2.complaints_impact ≤ 20) :=
  breakdown_clamped_amended (some (-5)) (some 200) 5 (by norm_num)

/-- Claim C10: for every input — including a negative complaintsCount that
violates the documented precondition — the final returned score lies in
[0, 100], because the score is clamped to that interval independently of
the breakdown components. -/
theorem score_always_clamped (aqi_pm25 noise_db : Option ℚ) (c : ℤ) :
    0 ≤ (compute_health_score aqi_pm25 noise_db c).1 ∧
    (compute_health_score aqi_pm25 noise_db c).1 ≤ 100 :=
  score_bounds _ _ _

/-- A locality record of the mock data set (values of the JSON mapping
loaded by `load_mock_local_data`, consumed at app.py:55-79 and 161-163):
`sample_latlon` is an optional coordinate pair, `noise_db` an optional
float, `complaints` an integer, `pincode` an optional string. -/
structure LocalityRecord where
  sample_latlon : Option (ℚ × ℚ)
  noise_db : Option ℚ
  complaints : ℤ
  pincode : Option String
deriving DecidableEq, Repr

/-- Squared Euclidean distance used by the matcher
(`(lat - sample[0]) ** 2 + (lon - sample[1]) ** 2`, app.py:70). -/
def sqDist (lat lon : ℚ) (s : ℚ × ℚ) : ℚ := (lat - s.1) ^ 2 + (lon - s.2) ^ 2

/-- The `for key, value in lookup.items()` loop of
`get_mock_localities_for_location` (app.py:67-73): the accumulator is the
current best `(best_key, value, best_dist)`; `none` plays the role of the
initial `best_key = None` / `best_dist = inf` state.  An entry replaces the
accumulator only when its distance is strictly smaller, so the earliest
entry wins ties, as in the source.  Since a Python dict has unique keys,
`lookup[best_key]` (app.py:76) is the value carried with the best key. -/
def scanBest (lat lon : ℚ) (acc : Option (String × LocalityRecord × ℚ)) :
    List (String × LocalityRecord) → Option (String × LocalityRecord × ℚ)
  | [] => acc
  | (k, v) :: rest =>
    match v.sample_latlon with
    | none => scanBest lat lon acc rest
    | some s =>
      match acc with
      | none => scanBest lat lon (some (k, v, sqDist lat lon s)) rest
      | some b =>
        if sqDist lat lon s < b.2.2 then scanBest lat lon (some (k, v, sqDist lat lon s)) rest
        else scanBest lat lon (some b) rest

/-- Embedding of `get_mock_localities_for_location` (app.py:55-79).  The
dict is an association list in insertion (= iteration) order.  After the
loop, the source tests `if best_key:` — Python truthiness — so both
`best_key = None` (no record had a sample coordinate) and `best_key = ""`
(the best record's key is the empty string) fall through to the
first-entry fallback.  Returns `none` exactly when the mapping is empty, in
which case the source raises `StopIteration` from `next(iter(lookup))`. -/
def get_mock_localities_for_location (lat lon : ℚ)
    (lookup : List (String × LocalityRecord)) : Option LocalityRecord :=
  match scanBest lat lon none lookup with
  | some (k, v, _) =>
    if k = "" then (lookup.head?).map Prod.snd else some v
  | none => (lookup.head?).map Prod.snd

/-- Structural-recursion companion of `scanBest` used for reasoning: the
minimum over the list with earliest-entry tie-break. -/
def listMin (lat lon : ℚ) : List (String × LocalityRecord) →
    Option (String × LocalityRecord × ℚ)
  | [] => none
  | (k, v) :: rest =>
    match v.sample_latlon with
    | none => listMin lat lon rest
    | some s =>
      match listMin lat lon rest with
      | none => some (k, v, sqDist lat lon s)
      | some m => if m.2.2 < sqDist lat lon s then some m else some (k, v, sqDist lat lon s)

lemma scanBest_some (lat lon : ℚ) (l : List (String × LocalityRecord)) :
    ∀ b : String × LocalityRecord × ℚ, scanBest lat lon (some b) l =
      match listMin lat lon l with
      | none => some b
      | some m => if m.2.2 < b.2.2 then some m else some b := by
  induction l with
  | nil => intro b; rfl
  | cons kv rest ih =>
    intro b
    obtain ⟨k, v⟩ := kv
    cases hv : v.sample_latlon with
    | none => simp only [scanBest, listMin, hv, ih b]
    | some s =>
      simp only [scanBest, listMin, hv]
      cases hm : listMin lat lon rest with
      | none =>
        by_cases hd : sqDist lat lon s < b.2.2
        · simp only [if_pos hd, ih, hm]
        · simp only [if_neg hd, ih, hm]
      | some m =>
        by_cases hd : sqDist lat lon s < b.2.2
        · simp only [if_pos hd, ih, hm]
          by_cases h1 : m.2.2 < sqDist lat lon s
          · have h2 : m.2.2 < b.2.2 := lt_trans h1 hd
            simp only [if_pos h1, if_pos h2]
          · simp only [if_neg h1, if_pos hd]
        · simp only [if_neg hd, ih, hm]
          have hb : b.2.2 ≤ sqDist lat lon s := not_lt.mp hd
          by_cases h1 : m.2.2 < sqDist lat lon s
          · simp only [if_pos h1]
          · have h2 : ¬ m.2.2 < b.2.2 := not_lt.mpr (le_trans hb (not_lt.mp h1))
            simp only [if_neg h1, if_neg h2, if_neg hd]

lemma scanBest_none (lat lon : ℚ) (l : List (String × LocalityRecord)) :
    scanBest lat lon none l = listMin lat lon l := by
  induction l with
  | nil => rfl
  | cons kv rest ih =>
    obtain ⟨k, v⟩ := kv
    cases hv : v.sample_latlon with
    | none => simp only [scanBest, listMin, hv, ih]
    | some s =>
      simp only [scanBest, listMin, hv, scanBest_some]

lemma listMin_eq_none_iff (lat lon : ℚ) (l : List (String × LocalityRecord)) :
    listMin lat lon l = none ↔ ∀ kv ∈ l, (kv.2).sample_latlon = none := by
  induction l with
  | nil => simp [listMin]
  | cons kv rest ih =>
    obtain ⟨k, v⟩ := kv
    cases hv : v.sample_latlon with
    | none => simp only [listMin, hv, ih]; simp [hv]
    | some s =>
      simp only [listMin, hv]
      cases hm : listMin lat lon rest with
      | none =>
        simp only [reduceCtorEq, false_iff, not_forall]
        exact ⟨(k, v), by simp [hv]⟩
      | some m =>
        constructor
        · intro h
          by_cases h1 : m.2.2 < sqDist lat lon s <;> simp [h1] at h
        · intro h
          have := h (k, v) (by simp)
          simp [hv] at this

/-- Characterisation of `listMin`: its result is the first entry of the
list attaining the minimal squared distance among entries that carry a
sample coordinate (strictly smaller than every earlier sampled entry,
no larger than every later one). -/
lemma listMin_spec (lat lon : ℚ) (l : List (String × LocalityRecord))
    (k : String) (v : LocalityRecord) (d : ℚ)
    (h : listMin lat lon l = some (k, v, d)) :
    ∃ pre post s, l = pre ++ (k, v) :: post ∧ v.sample_latlon = some s ∧
      d = sqDist lat lon s ∧
      (∀ kv ∈ pre, ∀ t, (kv.2).sample_latlon = some t → d < sqDist lat lon t) ∧
      (∀ kv ∈ post, ∀ t, (kv.2).sample_latlon = some t → d ≤ sqDist lat lon t) := by
  induction l generalizing k v d with
  | nil => simp [listMin] at h
  | cons kv0 rest ih =>
    obtain ⟨k0, v0⟩ := kv0
    cases hv : v0.sample_latlon with
    | none =>
      simp only [listMin, hv] at h
      obtain ⟨pre, post, s, heq, hs, hd, hpre, hpost⟩ := ih _ _ _ h
      refine ⟨(k0, v0) :: pre, post, s, by rw [heq]; rfl, hs, hd, ?_, hpost⟩
      intro kv hkv t ht
      rcases List.mem_cons.mp hkv with hkv | hkv
      · rw [hkv] at ht; simp only [hv] at ht; cases ht
      · exact hpre kv hkv t ht
    | some s0 =>
      simp only [listMin, hv] at h
      cases hm : listMin lat lon rest with
      | none =>
        rw [hm] at h
        replace h : some (k0, v0, sqDist lat lon s0) = some (k, v, d) := h
        obtain ⟨rfl, rfl, rfl⟩ : k0 = k ∧ v0 = v ∧ sqDist lat lon s0 = d := by
          simpa using h
        refine ⟨[], rest, s0, rfl, hv, rfl, ?_, ?_⟩
        · intro kv hkv; cases hkv
        · intro kv hkv t ht
          have hall := (listMin_eq_none_iff lat lon rest).mp hm
          rw [hall kv hkv] at ht
          cases ht
      | some m =>
        obtain ⟨km, vm, dm⟩ := m
        rw [hm] at h
        replace h : (if dm < sqDist lat lon s0 then some (km, vm, dm)
            else some (k0, v0, sqDist lat lon s0)) = some (k, v, d) := h
        by_cases h1 : dm < sqDist lat lon s0
        · rw [if_pos h1] at h
          obtain ⟨rfl, rfl, rfl⟩ : km = k ∧ vm = v ∧ dm = d := by simpa using h
          obtain ⟨pre, post, s, heq, hs, hd, hpre, hpost⟩ := ih _ _ _ hm
          refine ⟨(k0, v0) :: pre, post, s, by rw [heq]; rfl, hs, hd, ?_, hpost⟩
          intro kv hkv t ht
          rcases List.mem_cons.mp hkv with hkv | hkv
          · rw [hkv] at ht
            simp only [hv, Option.some.injEq] at ht
            rw [← ht]
            exact h1
          · exact hpre kv hkv t ht
        · rw [if_neg h1] at h
          obtain ⟨rfl, rfl, rfl⟩ : k0 = k ∧ v0 = v ∧ sqDist lat lon s0 = d := by
            simpa using h
          refine ⟨[], rest, s0, rfl, hv, rfl, ?_, ?_⟩
          · intro kv hkv; cases hkv
          · have hle : sqDist lat lon s0 ≤ dm := not_lt.mp h1
            obtain ⟨pre, post, s, heq, hs, hd, hpre, hpost⟩ := ih _ _ _ hm
            intro kv hkv t ht
            rw [heq] at hkv
            rcases List.mem_append.mp hkv with hkv | hkv
            · exact le_of_lt (lt_of_le_of_lt hle (hpre kv hkv t ht))
            · rcases List.mem_cons.mp hkv with hkv | hkv
              · rw [hkv] at ht
                rw [hs] at ht
                have ht2 : s = t := Option.some.inj ht
                rw [← ht2, ← hd]
                exact hle
              · exact le_trans hle (hpost kv hkv t ht)

lemma get_mock_head (lat lon : ℚ) (l : List (String × LocalityRecord))
    (h : listMin lat lon l = none) :
    get_mock_localities_for_location lat lon l = (l.head?).map Prod.snd := by
  unfold get_mock_localities_for_location
  rw [scanBest_none, h]

lemma get_mock_of_listMin (lat lon : ℚ) (l : List (String × LocalityRecord))
    (k : String) (v : LocalityRecord) (d : ℚ)
    (h : listMin lat lon l = some (k, v, d)) (hk : k ≠ "") :
    get_mock_localities_for_location lat lon l = some v := by
  unfold get_mock_localities_for_location
  rw [scanBest_none, h]
  simp [hk]

/-- On a non-empty mapping the matcher always produces a record of the
mapping. -/
lemma get_mock_ne_none (lat lon : ℚ) (l : List (String × LocalityRecord))
    (h : l ≠ []) :
    ∃ r, get_mock_localities_for_location lat lon l = some r ∧ r ∈ l.map Prod.snd := by
  obtain ⟨⟨k0, v0⟩, tl, rfl⟩ := List.exists_cons_of_ne_nil h
  cases hm : listMin lat lon ((k0, v0) :: tl) with
  | none =>
    refine ⟨v0, ?_, by simp⟩
    rw [get_mock_head _ _ _ hm]
    rfl
  | some m =>
    obtain ⟨k, v, d⟩ := m
    obtain ⟨pre, post, s, heq, -, -, -, -⟩ := listMin_spec _ _ _ _ _ _ hm
    by_cases hk : k = ""
    · refine ⟨v0, ?_, by simp⟩
      unfold get_mock_localities_for_location
      rw [scanBest_none, hm]
      simp [hk]
    · refine ⟨v, get_mock_of_listMin _ _ _ _ _ _ hm hk, ?_⟩
      rw [heq]
      simp

/-- A record far away from the query point (0, 0). -/
def recFar3 : LocalityRecord :=
  { sample_latlon := some (10, 10), noise_db := none, complaints := 0, pincode := none }

/-- A record whose sample coordinate equals the query point (0, 0). -/
def recExact3 : LocalityRecord :=
  { sample_latlon := some (0, 0), noise_db := none, complaints := 0, pincode := none }

/-- A mapping whose exact-match record sits under the key "". -/
def exLookup3 : List (String × LocalityRecord) := [("a", recFar3), ("", recExact3)]

/-- Counterexample to C3 as stated: querying (0, 0) against a two-record
mapping in which the exact-match record is stored under the (falsy) key ""
returns the FAR record, not the record of minimal squared distance — the
source's `if best_key:` truthiness test discards a best key equal to the
empty string and falls back to the first entry. -/
theorem matcher_empty_key_counterexample :
    get_mock_localities_for_location 0 0 exLookup3 = some recFar3 ∧
    ("", recExact3) ∈ exLookup3 ∧
    recExact3.sample_latlon = some (0, 0) ∧
    recFar3.sample_latlon = some (10, 10) ∧
    sqDist 0 0 (0, 0) < sqDist 0 0 (10, 10) ∧
    recFar3 ≠ recExact3 := by
  refine ⟨?_, by simp [exLookup3], rfl, rfl, by norm_num [sqDist], by decide⟩
  norm_num [get_mock_localities_for_location, scanBest, sqDist, exLookup3, recFar3, recExact3]

/-- Claim C3 as amended: for every coordinate and non-empty mapping WHOSE
KEYS ARE ALL NON-EMPTY (truthy), the matcher returns a record of the
mapping (never none); when at least one record has a sample coordinate it
returns the first record of minimal squared Euclidean distance among those
with a sample coordinate (strictly closer than every earlier sampled
record, at least as close as every later one); when no record has a sample
coordinate it returns the first record in iteration order. -/
theorem matcher_nearest_with_truthy_keys (lat lon : ℚ)
    (lookup : List (String × LocalityRecord))
    (hne : lookup ≠ []) (hkeys : ∀ kv ∈ lookup, kv.1 ≠ "") :
    ∃ r, get_mock_localities_for_location lat lon lookup = some r ∧
      r ∈ lookup.map Prod.snd ∧
      ((∀ kv ∈ lookup, (kv.2).sample_latlon = none) →
        (lookup.head?).map Prod.snd = some r) ∧
      (¬ (∀ kv ∈ lookup, (kv.2).sample_latlon = none) →
        ∃ pre k post s, lookup = pre ++ (k, r) :: post ∧ r.sample_latlon = some s ∧
          (∀ kv ∈ pre, ∀ t, (kv.2).sample_latlon = some t →
            sqDist lat lon s < sqDist lat lon t) ∧
          (∀ kv ∈ post, ∀ t, (kv.2).sample_latlon = some t →
            sqDist lat lon s ≤ sqDist lat lon t)) := by
  cases hm : listMin lat lon lookup with
  | none =>
    have hall := (listMin_eq_none_iff lat lon lookup).mp hm
    obtain ⟨⟨k0, v0⟩, tl, rfl⟩ := List.exists_cons_of_ne_nil hne
    refine ⟨v0, ?_, by simp, fun _ => by simp, fun hcon => absurd hall hcon⟩
    rw [get_mock_head _ _ _ hm]
    rfl
  | some m =>
    obtain ⟨k, v, d⟩ := m
    obtain ⟨pre, post, s, heq, hs, hd, hpre, hpost⟩ := listMin_spec _ _ _ _ _ _ hm
    have hk : k ≠ "" := hkeys (k, v) (by rw [heq]; simp)
    refine ⟨v, get_mock_of_listMin _ _ _ _ _ _ hm hk, by rw [heq]; simp, ?_, ?_⟩
    · intro hall
      have := hall (k, v) (by rw [heq]; simp)
      rw [hs] at this
      cases this
    · intro _
      subst hd
      exact ⟨pre, k, post, s, heq, hs, hpre, hpost⟩

/-- Witness for the amended C3: a two-record mapping with truthy keys where
the exact match is second; the matcher produces a result. -/
theorem matcher_nearest_witness :
    (get_mock_localities_for_location 0 0 [("a", recFar3), ("b", recExact3)]).isSome = true := by
  obtain ⟨r, hr, -, -, -⟩ := matcher_nearest_with_truthy_keys 0 0
    [("a", recFar3), ("b", recExact3)] (by simp) (by simp)
  rw [hr]
  rfl

/-- The trend series produced by `generate_mock_aqi_trend`
(app.py:114-128): dates as abstract day numbers (days since an arbitrary
epoch; the source formats them as ISO strings), values in the `pm25` list.
-/
structure Trend where
  dates : List ℤ
  pm25 : List ℚ
deriving DecidableEq, Repr

/-- Value of one trend point (app.py:124-125):
`v = max(5.0, base + sin(i)*5.0 + (i - 3)*1.5)` then
`v = round(v + (i % 3 - 1), 1)`, where `i` is the day offset and `sinF`
stands for `math.sin` on the loop indices. -/
def trendValue (sinF : ℕ → ℚ) (base : ℚ) (i : ℕ) : ℚ :=
  pyRound 1 (max 5 (base + sinF i * 5 + (((i : ℤ) : ℚ) - 3) * (3 / 2)) +
    (((i % 3 : ℕ) : ℚ) - 1))

/-- Embedding of `generate_mock_aqi_trend` (app.py:114-128): the loop
`for i in range(6, -1, -1)` appends the date `today - i` and the value for
offset `i`, so dates run oldest first and end at `today`. -/
def generate_mock_aqi_trend (sinF : ℕ → ℚ) (today : ℤ) (pm25 : Option ℚ) : Trend :=
  let base := pm25.getD 40
  { dates := ([6, 5, 4, 3, 2, 1, 0] : List ℕ).map (fun i => today - (i : ℤ)),
    pm25 := ([6, 5, 4, 3, 2, 1, 0] : List ℕ).map (fun i => trendValue sinF base i) }

/-- Claim C7: for every anchor input (pm2.5 or absent), the trend has
exactly 7 (date, value) pairs for the 7 consecutive calendar days ending
today, oldest first, strictly increasing by one day, last date today; the
value for offset i is round(max(5, anchor + sin(i)*5 + (i-3)*1.5) +
((i mod 3) - 1), 1) with anchor defaulting to 40 when pm2.5 is absent; and
the output depends only on (sin at offsets 0..6, today, anchor), i.e. it is
deterministic given the anchor and today's date. -/
theorem trend_series_shape (sinF : ℕ → ℚ) (today : ℤ) (anchor : Option ℚ) :
    (generate_mock_aqi_trend sinF today anchor).dates =
      [today - 6, today - 5, today - 4, today - 3, today - 2, today - 1, today] ∧
    List.Chain' (fun a b => b = a + 1) (generate_mock_aqi_trend sinF today anchor).dates ∧
    (generate_mock_aqi_trend sinF today anchor).dates.getLast? = some today ∧
    (generate_mock_aqi_trend sinF today anchor).dates.length = 7 ∧
    (generate_mock_aqi_trend sinF today anchor).pm25.length = 7 ∧
    (generate_mock_aqi_trend sinF today anchor).pm25 =
      ([6, 5, 4, 3, 2, 1, 0] : List ℕ).map (fun i =>
        pyRound 1 (max 5 (anchor.getD 40 + sinF i * 5 + (((i : ℤ) : ℚ) - 3) * (3 / 2)) +
          (((i % 3 : ℕ) : ℚ) - 1))) ∧
    (∀ sinG : ℕ → ℚ, (∀ i : ℕ, i ≤ 6 → sinF i = sinG i) →
      generate_mock_aqi_trend sinF today anchor = generate_mock_aqi_trend sinG today anchor) := by
  refine ⟨?_, ?_, ?_, rfl, rfl, rfl, ?_⟩
  · simp only [generate_mock_aqi_trend, List.map]
    norm_num
  · simp only [generate_mock_aqi_trend, List.map, List.chain'_cons, List.chain'_singleton,
      and_true]
    omega
  · simp only [generate_mock_aqi_trend, List.map, List.getLast?]
    norm_num
  · intro sinG hfg
    simp only [generate_mock_aqi_trend, List.map, trendValue, Trend.mk.injEq, true_and]
    rw [hfg 6 (by norm_num), hfg 5 (by norm_num), hfg 4 (by norm_num), hfg 3 (by norm_num),
      hfg 2 (by norm_num), hfg 1 (by norm_num), hfg 0 (by norm_num)]

/-- Witness for C7: the dates of the series at anchor absent, sin = 0,
today = 0. -/
theorem trend_series_shape_witness :
    (generate_mock_aqi_trend (fun _ => 0) 0 none).dates =
      [0 - 6, 0 - 5, 0 - 4, 0 - 3, 0 - 2, 0 - 1, 0] :=
  (trend_series_shape (fun _ => 0) 0 none).1

/-- One candidate of the geocoding service's JSON array (app.py:24-27):
latitude, longitude (the source parses their string forms with `float`) and
an optional display name. -/
structure GeoCandidate where
  lat : ℚ
  lon : ℚ
  display_name : Option String
deriving DecidableEq, Repr

/-- Outcome of the geocoder's HTTP exchange: a transport/protocol failure
(`raise_for_status` or a malformed body raises, carrying a message), or a
parsed candidate list. -/
inductive GeoHttp where
  | failure (msg : String)
  | ok (results : List GeoCandidate)
deriving DecidableEq, Repr

/-- Embedding of `geocode_address` (app.py:18-27) over the outcome of its
one outbound call: a raised exception propagates (`Except.error`), an empty
result list yields `None`, otherwise the first candidate's fields are
returned with `display_name` defaulting to "". -/
def geocode_address (r : GeoHttp) : Except String (Option (ℚ × ℚ × String)) :=
  match r with
  | GeoHttp.failure msg => Except.error msg
  | GeoHttp.ok [] => Except.ok none
  | GeoHttp.ok (c :: _) => Except.ok (some (c.lat, c.lon, c.display_name.getD ""))

/-- One reading of the air-pollution service (app.py:41-45): the
categorical index `main.aqi` (optional) and the component concentration
map. -/
structure AqiItem where
  main_aqi : Option ℤ
  components : List (String × ℚ)
deriving DecidableEq, Repr

/-- Parsed body of the air-pollution response: `list` is absent (`none`)
when the key is missing. -/
structure AqiBody where
  list : Option (List AqiItem)
deriving DecidableEq, Repr

/-- Outcome of the pollution reader's HTTP exchange. -/
inductive AqiHttp where
  | failure (msg : String)
  | ok (body : AqiBody)
deriving DecidableEq, Repr

/-- The dict returned by `fetch_aqi` on success (app.py:46): `aqi_index`,
`components`, and the `pm2_5` component if present (the `raw` field of the
source, the whole first reading, carries no extra information used by the
handler and is omitted). -/
structure AqiData where
  aqi_index : Option ℤ
  components : List (String × ℚ)
  pm2_5 : Option ℚ
deriving DecidableEq, Repr

/-- Python `dict.get` on the components map (unique keys, first match). -/
def componentsGet (comps : List (String × ℚ)) (key : String) : Option ℚ :=
  match comps with
  | [] => none
  | (k, v) :: rest => if k = key then some v else componentsGet rest key

/-- Embedding of `fetch_aqi` (app.py:30-47): a raised exception propagates;
with a body whose `list` key is present and non-empty the first item is
shaped into `AqiData`; otherwise the function returns `None`. -/
def fetch_aqi (r : AqiHttp) : Except String (Option AqiData) :=
  match r with
  | AqiHttp.failure msg => Except.error msg
  | AqiHttp.ok body =>
    match body.list with
    | some (item :: _) =>
      Except.ok (some
        { aqi_index := item.main_aqi
          components := item.components
          pm2_5 := componentsGet item.components "pm2_5" })
    | some [] => Except.ok none
    | none => Except.ok none

/-- The JSON report assembled at app.py:176-188. -/
structure ReportResp where
  address : String
  lat : ℚ
  lon : ℚ
  pincode : Option String
  aqi : Option AqiData
  pm25 : Option ℚ
  noise_db : Option ℚ
  complaints : ℤ
  score : ℚ
  breakdown : Breakdown
  trend : Trend
deriving DecidableEq, Repr

/-- The three response shapes of the `/api/report` route: 400 with an error
message, 500 with an error message (the outer `except Exception` handler),
or 200 with the report. -/
inductive ApiResponse where
  | badRequest (error : String)
  | serverError (error : String)
  | ok (resp : ReportResp)
deriving DecidableEq, Repr

/-- HTTP status code of a response. -/
def ApiResponse.statusCode : ApiResponse → ℕ
  | ApiResponse.badRequest _ => 400
  | ApiResponse.serverError _ => 500
  | ApiResponse.ok _ => 200

/-- The report carried by a 200 response, if any. -/
def ApiResponse.okResp? : ApiResponse → Option ReportResp
  | ApiResponse.ok r => some r
  | _ => none

/-- Everything outside the handler that determines one request's run: the
geocoding response, the pollution response, the mock mapping read by
`load_mock_local_data`, and the ambient `math.sin` / `datetime.utcnow`
inputs of the trend synthesizer. -/
structure Env where
  geoResp : GeoHttp
  aqiResp : AqiHttp
  mock : List (String × LocalityRecord)
  sinF : ℕ → ℚ
  today : ℤ

/-- Python `str.strip()` on the address (app.py:140): drop leading and
trailing whitespace. -/
def pyStrip (s : String) : String :=
  String.mk (((s.data.dropWhile Char.isWhitespace).reverse.dropWhile Char.isWhitespace).reverse)

/-- Embedding of the `/api/report` handler `api_report` (app.py:137-191).

* The address is stripped; an empty result is rejected with 400
  "address required" before any outbound call (app.py:140-142).
* A geocoding exception escapes to the outer `except Exception` handler
  and becomes a 500 with the exception's message (app.py:190-191); an
  empty geocoding result is a 400 "could not geocode address"
  (app.py:146-147).
* A pollution-fetch exception is swallowed by the inner `try` and `aqi`
  proceeds as `None` (app.py:151-155).
* An empty mock mapping makes `next(iter(lookup))` raise `StopIteration`
  (whose message is empty), caught by the outer handler as a 500
  (app.py:78, 190-191).
* `pm25` is taken from the aqi dict: the dict always carries a "pm2_5"
  key, so `if aqi and "pm2_5" in aqi` reduces to `aqi is not None` and the
  `elif` branch is dead code (app.py:165-170).
* The trend anchor is `pm25 if pm25 is not None else 40.0` (app.py:174).
-/
def api_report (env : Env) (reqAddr : String) : ApiResponse :=
  let address := pyStrip reqAddr
  if address = "" then ApiResponse.badRequest "address required"
  else
    match geocode_address env.geoResp with
    | Except.error msg => ApiResponse.serverError msg
    | Except.ok none => ApiResponse.badRequest "could not geocode address"
    | Except.ok (some (lat, lon, display)) =>
      let aqi : Option AqiData :=
        match fetch_aqi env.aqiResp with
        | Except.error _ => none
        | Except.ok o => o
      match get_mock_localities_for_location lat lon env.mock with
      | none => ApiResponse.serverError ""
      | some localRec =>
        let noise_db := localRec.noise_db
        let complaints := localRec.complaints
        let sample_pincode := localRec.pincode
        let pm25 := aqi.bind AqiData.pm2_5
        let sb := compute_health_score pm25 noise_db complaints
        let trend := generate_mock_aqi_trend env.sinF env.today (some (pm25.getD 40))
        ApiResponse.ok
          { address := display, lat := lat, lon := lon, pincode := sample_pincode,
            aqi := aqi, pm25 := pm25, noise_db := noise_db, complaints := complaints,
            score := sb.1, breakdown := sb.2, trend := trend }

/-- When pm2.5 is absent the score engine behaves as if it had received the
35.0 default (app.py:91-92). -/
lemma compute_health_score_getD (pm nd : Option ℚ) (c : ℤ) :
    compute_health_score pm nd c = compute_health_score (some (pm.getD 35)) nd c := by
  cases pm <;> rfl

/-- How each of the two hard-coded defaults (40.0 for the trend anchor,
35.0 for the score engine) behaves on a present or absent pm2.5. -/
lemma option_defaults (o : Option ℚ) :
    (∀ v, o = some v → o.getD 40 = v ∧ o.getD 35 = v) ∧
    (o = none → o.getD 40 = 40 ∧ o.getD 35 = 35 ∧ (40 : ℚ) ≠ 35) := by
  cases o with
  | none =>
    refine ⟨?_, ?_⟩
    · intro v hv
      cases hv
    · intro _
      exact ⟨rfl, rfl, by norm_num⟩
  | some x =>
    refine ⟨?_, ?_⟩
    · intro v hv
      cases hv
      exact ⟨rfl, rfl⟩
    · intro hv
      cases hv

/-- A concrete environment whose geocoding call fails in transport. -/
def envC4 : Env :=
  { geoResp := GeoHttp.failure "boom", aqiResp := AqiHttp.ok ⟨none⟩,
    mock := [("k", ⟨none, none, 0, none⟩)], sinF := fun _ => 0, today := 0 }

/-- Counterexample to C4 as stated: a geocoding transport failure does NOT
surface as a 400-class "could not geocode" condition — the exception
escapes to the outer handler and the route answers 500 with the raw
exception message. -/
theorem geocode_transport_counterexample :
    api_report envC4 "a" = ApiResponse.serverError "boom" ∧
    (api_report envC4 "a").statusCode = 500 ∧
    ¬ (api_report envC4 "a").statusCode = 400 := by
  have h : api_report envC4 "a" = ApiResponse.serverError "boom" := rfl
  refine ⟨h, by rw [h]; rfl, by rw [h]; simp [ApiResponse.statusCode]⟩

/-- Claim C4 as amended: with a non-empty address, a geocoding NotFound
(empty candidate list) yields 400 "could not geocode address", while a
geocoding transport/protocol failure yields a 500 with the exception
message — the two failures get DIFFERENT status classes; in both cases the
request is aborted: the response does not depend on the pollution
response, the mock mapping, or the trend inputs. -/
theorem geocode_failure_handling_amended (env : Env) (addr : String)
    (h1 : pyStrip addr ≠ "") :
    (env.geoResp = GeoHttp.ok [] →
      api_report env addr = ApiResponse.badRequest "could not geocode address" ∧
      (api_report env addr).statusCode = 400) ∧
    (∀ msg, env.geoResp = GeoHttp.failure msg →
      api_report env addr = ApiResponse.serverError msg ∧
      (api_report env addr).statusCode = 500) ∧
    (∀ env2 : Env, env2.geoResp = env.geoResp →
      (env.geoResp = GeoHttp.ok [] ∨ ∃ m, env.geoResp = GeoHttp.failure m) →
      api_report env2 addr = api_report env addr) := by
  refine ⟨?_, ?_, ?_⟩
  · intro hg
    have h : api_report env addr = ApiResponse.badRequest "could not geocode address" := by
      simp only [api_report, if_neg h1, hg, geocode_address]
    exact ⟨h, by rw [h]; rfl⟩
  · intro msg hg
    have h : api_report env addr = ApiResponse.serverError msg := by
      simp only [api_report, if_neg h1, hg, geocode_address]
    exact ⟨h, by rw [h]; rfl⟩
  · intro env2 hg2 hcase
    rcases hcase with hg | ⟨m, hg⟩
    · simp only [api_report, if_neg h1, hg2, hg, geocode_address]
    · simp only [api_report, if_neg h1, hg2, hg, geocode_address]

/-- A concrete environment whose geocoding call returns no candidate. -/
def envC4nf : Env :=
  { geoResp := GeoHttp.ok [], aqiResp := AqiHttp.ok ⟨none⟩,
    mock := [], sinF := fun _ => 0, today := 0 }

/-- Witness for the amended C4 at the NotFound case. -/
theorem geocode_failure_witness :
    api_report envC4nf "a" = ApiResponse.badRequest "could not geocode address" ∧
    (api_report envC4nf "a").statusCode = 400 :=
  (geocode_failure_handling_amended envC4nf "a" (by decide)).1 rfl

/-- A concrete environment with a valid geocoding result and an EMPTY mock
mapping. -/
def envC9 : Env :=
  { geoResp := GeoHttp.ok [⟨0, 0, none⟩], aqiResp := AqiHttp.ok ⟨none⟩,
    mock := [], sinF := fun _ => 0, today := 0 }

/-- Counterexample to C9 as stated: the empty locality mapping is NOT a
startup-only condition — a request reaches the matcher with the empty
mapping during per-request processing (the matcher produces no record,
`next(iter(lookup))` raises `StopIteration`, and the route answers 500). -/
theorem empty_mapping_counterexample :
    envC9.mock = [] ∧
    get_mock_localities_for_location 0 0 envC9.mock = none ∧
    api_report envC9 "a" = ApiResponse.serverError "" ∧
    (api_report envC9 "a").statusCode = 500 := by
  have h : api_report envC9 "a" = ApiResponse.serverError "" := rfl
  exact ⟨rfl, rfl, h, by rw [h]; rfl⟩

/-- Claim C9 as amended: the mock mapping is loaded per-request inside the
handler, and an empty mapping is not rejected at startup: any request with
a non-empty address and a successful geocoding result against an empty
mapping reaches the matcher, which yields no record, and the request fails
with a 500-class generic error (the `StopIteration` of
`next(iter(lookup))`). -/
theorem empty_mapping_amended (env : Env) (addr : String) (c : GeoCandidate)
    (rest : List GeoCandidate) (h1 : pyStrip addr ≠ "")
    (h2 : env.geoResp = GeoHttp.ok (c :: rest)) (h3 : env.mock = []) :
    api_report env addr = ApiResponse.serverError "" ∧
    get_mock_localities_for_location c.lat c.lon env.mock = none := by
  constructor
  · simp only [api_report, if_neg h1, h2, h3, geocode_address]
    rfl
  · rw [h3]
    rfl

/-- Witness for the amended C9. -/
theorem empty_mapping_witness :
    api_report envC9 "a" = ApiResponse.serverError "" :=
  (empty_mapping_amended envC9 "a" ⟨0, 0, none⟩ [] (by decide) rfl rfl).1

/-- Claim C8: when the pollution fetch raises (any transport error,
malformed body or non-2xx — all modelled as `AqiHttp.failure`), the
request still succeeds: the handler proceeds with a null reading, the
report is a 200 response with `aqi` null and `pm25` null, and the score and
breakdown are exactly those computed from the 35.0 default pm2.5
baseline. -/
theorem pollution_failure_degrades (env : Env) (addr msg : String)
    (c : GeoCandidate) (rest : List GeoCandidate)
    (h1 : pyStrip addr ≠ "") (h2 : env.geoResp = GeoHttp.ok (c :: rest))
    (h3 : env.aqiResp = AqiHttp.failure msg) (h4 : env.mock ≠ []) :
    ∃ resp, api_report env addr = ApiResponse.ok resp ∧ resp.aqi = none ∧
      resp.pm25 = none ∧
      (resp.score, resp.breakdown) =
        compute_health_score (some 35) resp.noise_db resp.complaints := by
  obtain ⟨r, hr, -⟩ := get_mock_ne_none c.lat c.lon env.mock h4
  refine ⟨{ address := c.display_name.getD "", lat := c.lat, lon := c.lon,
            pincode := r.pincode, aqi := none, pm25 := none, noise_db := r.noise_db,
            complaints := r.complaints,
            score := (compute_health_score none r.noise_db r.complaints).1,
            breakdown := (compute_health_score none r.noise_db r.complaints).2,
            trend := generate_mock_aqi_trend env.sinF env.today (some 40) },
    ?_, rfl, rfl, rfl⟩
  simp only [api_report, if_neg h1, h2, h3, geocode_address, fetch_aqi]
  rw [hr]
  rfl

/-- A concrete environment with a valid geocoding result, a failing
pollution fetch, and a one-record mock mapping. -/
def envC8 : Env :=
  { geoResp := GeoHttp.ok [⟨0, 0, none⟩], aqiResp := AqiHttp.failure "boom",
    mock := [("k", ⟨none, none, 0, none⟩)], sinF := fun _ => 0, today := 0 }

/-- Witness for C8: the request against `envC8` produces a 200 report. -/
theorem pollution_failure_degrades_witness :
    (api_report envC8 "a").okResp?.isSome = true := by
  obtain ⟨resp, hresp, -, -, -⟩ := pollution_failure_degrades envC8 "a" "boom"
    ⟨0, 0, none⟩ [] (by decide) rfl rfl (by decide)
  rw [hresp]
  rfl

/-- A concrete successful request whose pollution reading carries no pm2.5
(the fetch fails), exposing the two different defaults. -/
def envC5 : Env :=
  { geoResp := GeoHttp.ok [⟨0, 0, none⟩], aqiResp := AqiHttp.failure "x",
    mock := [("k", ⟨none, none, 0, none⟩)], sinF := fun _ => 0, today := 0 }

/-- Counterexample to C5 as stated: in a successful request with pm2.5
absent, the trend synthesizer receives the 40.0 anchor while the score is
the one computed from the 35.0 default — the two defaults differ, and the
trend built from 40.0 is observably different from the trend the 35.0
scoring value would give. -/
theorem trend_anchor_counterexample :
    (api_report envC5 "a").okResp?.map ReportResp.pm25 = some none ∧
    (api_report envC5 "a").okResp?.map ReportResp.trend =
      some (generate_mock_aqi_trend envC5.sinF envC5.today (some 40)) ∧
    (api_report envC5 "a").okResp?.map ReportResp.score =
      some ((compute_health_score (some 35) none 0).1) ∧
    generate_mock_aqi_trend envC5.sinF envC5.today (some 40) ≠
      generate_mock_aqi_trend envC5.sinF envC5.today (some 35) := by
  refine ⟨rfl, rfl, rfl, ?_⟩
  have h40 : (generate_mock_aqi_trend envC5.sinF envC5.today (some 40)).pm25.headI
      = 43.5 := by
    norm_num [generate_mock_aqi_trend, trendValue, pyRound, roundHalfEven, envC5,
      max_def, List.headI]
  have h35 : (generate_mock_aqi_trend envC5.sinF envC5.today (some 35)).pm25.headI
      = 38.5 := by
    norm_num [generate_mock_aqi_trend, trendValue, pyRound, roundHalfEven, envC5,
      max_def, List.headI]
  intro hcon
  rw [hcon, h35] at h40
  norm_num at h40

/-- Claim C5 as amended: in every successful request, when a pm2.5 reading
is present both the score engine and the trend synthesizer receive that
same value; when pm2.5 is absent the trend synthesizer receives the 40.0
default while the score engine applies its own 35.0 default — the two
defaults are NOT the same value. -/
theorem trend_anchor_amended (env : Env) (addr : String) (resp : ReportResp)
    (h : api_report env addr = ApiResponse.ok resp) :
    resp.trend = generate_mock_aqi_trend env.sinF env.today (some (resp.pm25.getD 40)) ∧
    (resp.score, resp.breakdown) =
      compute_health_score (some (resp.pm25.getD 35)) resp.noise_db resp.complaints ∧
    (∀ v, resp.pm25 = some v → resp.pm25.getD 40 = v ∧ resp.pm25.getD 35 = v) ∧
    (resp.pm25 = none → resp.pm25.getD 40 = 40 ∧ resp.pm25.getD 35 = 35 ∧ (40 : ℚ) ≠ 35) := by
  simp only [api_report] at h
  by_cases h1 : pyStrip addr = ""
  · rw [if_pos h1] at h
    exact ApiResponse.noConfusion h
  · rw [if_neg h1] at h
    rcases hge : geocode_address env.geoResp with msg | og
    · rw [hge] at h
      exact ApiResponse.noConfusion h
    · rcases og with _ | ⟨lat, lon, display⟩
      · rw [hge] at h
        exact ApiResponse.noConfusion h
      · rw [hge] at h
        dsimp only at h
        rcases hr : get_mock_localities_for_location lat lon env.mock with _ | r
        · rw [hr] at h
          exact ApiResponse.noConfusion h
        · rw [hr] at h
          injection h with h5
          subst h5
          exact ⟨rfl, Prod.mk.eta.trans (compute_health_score_getD _ _ _),
            (option_defaults _).1, (option_defaults _).2⟩

/-- The report produced by the successful request of `envC5`. -/
def respC5 : ReportResp :=
  { address := "", lat := 0, lon := 0, pincode := none, aqi := none, pm25 := none,
    noise_db := none, complaints := 0,
    score := (compute_health_score none none 0).1,
    breakdown := (compute_health_score none none 0).2,
    trend := generate_mock_aqi_trend (fun _ => 0) 0 (some 40) }

/-- Witness for the amended C5 at the request of `envC5`. -/
theorem trend_anchor_witness :
    respC5.trend = generate_mock_aqi_trend envC5.sinF envC5.today (some (respC5.pm25.getD 40)) ∧
    respC5.pm25.getD 40 = 40 ∧ respC5.pm25.getD 35 = 35 :=
  ⟨(trend_anchor_amended envC5 "a" respC5 rfl).1,
   ((trend_anchor_amended envC5 "a" respC5 rfl).2.2.2 rfl).1,
   ((trend_anchor_amended envC5 "a" respC5 rfl).2.2.2 rfl).2.1⟩
